import Mathlib

/-!
Verification development for the workflow API module
(`python/ray/workflow/api.py`). The public API functions of the module are
embedded as pure Lean functions over an explicit system state. Parts of the
engine that the module delegates to (the `execution` module, the workflow
storage, and the `common` helpers) are not part of the analysed sources;
where a property depends on them they are modelled from the specification
and marked as such in their doc comments.
-/

/-- The closed workflow status enum (`WorkflowStatus` in
`ray.workflow.common`, defined in the spec §3 as a closed enum of exactly
these six values). -/
inductive WorkflowStatus where
  | NONE
  | RUNNING
  | CANCELED
  | SUCCESSFUL
  | FAILED
  | RESUMABLE
deriving DecidableEq, Repr, Inhabited

/-- Conversion from the string form of a status to the enum, as performed by
the Python enum call `WorkflowStatus(s)` (the enum is a string enum whose
values are the upper-case names). Returns `Option.none` where Python raises
`ValueError`. -/
def WorkflowStatus.ofString (s : String) : Option WorkflowStatus :=
  if s = "NONE" then some WorkflowStatus.NONE
  else if s = "RUNNING" then some WorkflowStatus.RUNNING
  else if s = "CANCELED" then some WorkflowStatus.CANCELED
  else if s = "SUCCESSFUL" then some WorkflowStatus.SUCCESSFUL
  else if s = "FAILED" then some WorkflowStatus.FAILED
  else if s = "RESUMABLE" then some WorkflowStatus.RESUMABLE
  else Option.none

/-- The errors the embedded API can raise. The workflow-specific error
classes live in `ray.workflow.common`; per the spec §7 error taxonomy they
are distinct from the `ValueError`-class and `TypeError`-class errors.
`invalidOptionsError` is listed in the spec taxonomy and included here so
statements about it can be made; the analysed code never constructs it. -/
inductive Err where
  | typeError (msg : String)
  | valueError (msg : String)
  | workflowRunningError (operation : String) (workflow_id : String)
  | workflowNotFoundError (workflow_id : String)
  | invalidOptionsError (msg : String)
deriving DecidableEq, Repr

/-- Modelled from the spec: which errors belong to the `ValueError` class
(what an `except ValueError` clause catches). The spec §7 taxonomy lists
`WorkflowRunningError` and `WorkflowNotFoundError` as their own classes,
distinct from `ValueError`-class errors, and §6 says only the unknown-id
failure of `get_status` is `ValueError`-class. -/
def Err.isValueError : Err → Bool
  | Err.valueError _ => true
  | _ => false

/-- True exactly for `TypeError`-class errors. -/
def Err.isTypeError : Err → Bool
  | Err.typeError _ => true
  | _ => false

/-- True exactly for the `InvalidOptionsError` class of the spec taxonomy. -/
def Err.isInvalidOptionsError : Err → Bool
  | Err.invalidOptionsError _ => true
  | _ => false

/-- Whether a fallible result is a `ValueError`-class failure. -/
def resultIsValueError {α : Type} : Except Err α → Bool
  | Except.error e => e.isValueError
  | Except.ok _ => false

/-- Whether a fallible result is an `InvalidOptionsError`-class failure. -/
def resultIsInvalidOptions {α : Type} : Except Err α → Bool
  | Except.error e => e.isInvalidOptionsError
  | Except.ok _ => false

/-- Whether a fallible result succeeded. -/
def resultIsOk {α : Type} : Except Err α → Bool
  | Except.ok _ => true
  | Except.error _ => false

/-- A (shallow) model of the Python values that can cross the API boundary:
strings, ints, booleans, one-level dictionaries, `None`, and function
objects (which are not JSON serializable). -/
inductive PyVal where
  | pstr (s : String)
  | pint (n : Int)
  | pbool (b : Bool)
  | pdict (entries : List (String × PyVal))
  | pnone
  | pfunc (name : String)

/-- Whether a Python value is a string (`isinstance(v, str)`). -/
def PyVal.isStr : PyVal → Bool
  | PyVal.pstr _ => true
  | _ => false

/-- Whether a Python value is a function object. -/
def PyVal.isFunc : PyVal → Bool
  | PyVal.pfunc _ => true
  | _ => false

/-- The observable process-wide state the API module operates on: the
module-level `_is_workflow_initialized` flag, whether Ray itself is
initialized, whether the management actor and the serialization manager
exist, the persisted workflow records of the checkpoint store, a log of the
queries issued to the engine (operation name and the workflow id it was
issued with), and a log of the storage deletions performed. -/
structure Sys where
  isWorkflowInitialized : Bool
  rayInitialized : Bool
  managementActorCreated : Bool
  serializationManagerCreated : Bool
  records : List (String × WorkflowStatus)
  queryLog : List (String × String)
  deletionLog : List String
deriving DecidableEq, Repr

/-- A completely uninitialized, empty system. -/
def Sys.empty : Sys :=
  { isWorkflowInitialized := false
    rayInitialized := false
    managementActorCreated := false
    serializationManagerCreated := false
    records := []
    queryLog := []
    deletionLog := [] }

/-- Whether the system counts as initialized for the module (both the
module flag and Ray itself). -/
def Sys.initialized (s : Sys) : Bool :=
  s.isWorkflowInitialized && s.rayInitialized

/-- Status of a persisted workflow record, if one exists. -/
def Sys.lookupStatus (s : Sys) (workflow_id : String) : Option WorkflowStatus :=
  (s.records.find? (fun p => p.1 = workflow_id)).map Prod.snd

/-- The embedding of `init`: initializes Ray when it is not initialized,
(re)creates the management actor and the serialization manager, and sets
the module flag. Modelled from the spec for the two creation calls:
`workflow_access.init_management_actor` and `serialization.init_manager`
are not part of the analysed sources; per spec §4.5 the controller "must be
idempotently (re)creatable", so both are get-or-create operations. The
external usage-telemetry call is out of scope per spec §1. -/
def init (s : Sys) : Sys :=
  let s1 := if s.rayInitialized then s else { s with rayInitialized := true }
  let s2 := { s1 with managementActorCreated := true }
  let s3 := { s2 with serializationManagerCreated := true }
  { s3 with isWorkflowInitialized := true }

/-- The embedding of `_ensure_workflow_initialized`: calls `init` when the
module flag is unset or Ray is not initialized. -/
def ensureWorkflowInitialized (s : Sys) : Sys :=
  if !s.isWorkflowInitialized || !s.rayInitialized then init s else s

/-- Record that a query was issued to the engine. -/
def Sys.logQuery (s : Sys) (op workflow_id : String) : Sys :=
  { s with queryLog := s.queryLog ++ [(op, workflow_id)] }

/-- Modelled from the spec: `execution.get_status` (the `execution` module
is not among the analysed sources). Per spec §6 it returns the status of
the workflow record and "fails with `ValueError`-class error if the id is
unknown". -/
def executionGetStatus (s : Sys) (workflow_id : String) :
    Except Err WorkflowStatus × Sys :=
  let s1 := s.logQuery "get_status" workflow_id
  match s1.lookupStatus workflow_id with
  | some st => (Except.ok st, s1)
  | Option.none =>
      (Except.error (Err.valueError ("No such workflow_id " ++ workflow_id)), s1)

/-- Modelled from the spec: `execution.cancel`. Per spec §4.5 cancel marks
the status `CANCELED`; checkpoints are retained. -/
def executionCancel (s : Sys) (workflow_id : String) : Except Err Unit × Sys :=
  let s1 := s.logQuery "cancel" workflow_id
  match s1.lookupStatus workflow_id with
  | some _ =>
      let newRecords := s1.records.map
        (fun p => if p.1 = workflow_id then (p.1, WorkflowStatus.CANCELED) else p)
      (Except.ok (), { s1 with records := newRecords })
  | Option.none =>
      (Except.error (Err.valueError ("No such workflow_id " ++ workflow_id)), s1)

/-- Modelled from the spec: `execution.resume` re-invokes the walker; spec
§4.5. Only the fact that it is an engine call matters for the API-level
claims; the walker itself is modelled separately for the resume-idempotence
claim. -/
def executionResume (s : Sys) (workflow_id : String) : Except Err Unit × Sys :=
  let s1 := s.logQuery "resume" workflow_id
  match s1.lookupStatus workflow_id with
  | some _ =>
      let newRecords := s1.records.map
        (fun p => if p.1 = workflow_id then (p.1, WorkflowStatus.RUNNING) else p)
      (Except.ok (), { s1 with records := newRecords })
  | Option.none =>
      (Except.error (Err.valueError ("No such workflow_id " ++ workflow_id)), s1)

/-- Modelled from the spec: `execution.get_output`; an engine query. -/
def executionGetOutput (s : Sys) (workflow_id : String) : Except Err Unit × Sys :=
  (Except.ok (), s.logQuery "get_output" workflow_id)

/-- Modelled from the spec: `execution.get_metadata`; an engine query. -/
def executionGetMetadata (s : Sys) (workflow_id : String) : Except Err Unit × Sys :=
  (Except.ok (), s.logQuery "get_metadata" workflow_id)

/-- Modelled from the spec: `execution.resume_all`; an engine query over all
resumable (and optionally failed) workflows. -/
def executionResumeAll (s : Sys) (include_failed : Bool) :
    Except Err (List String) × Sys :=
  let wanted : List WorkflowStatus :=
    if include_failed then [WorkflowStatus.RESUMABLE, WorkflowStatus.FAILED]
    else [WorkflowStatus.RESUMABLE]
  (Except.ok ((s.records.filter (fun p => wanted.contains p.2)).map Prod.fst),
    s.logQuery "resume_all" "")

/-- Modelled from the spec: `execution.list_all` over a set of statuses;
returns the records whose status is in the filter set. -/
def executionListAll (s : Sys) (status_filter : List WorkflowStatus) :
    Except Err (List (String × WorkflowStatus)) × Sys :=
  (Except.ok (s.records.filter (fun p => status_filter.contains p.2)),
    s.logQuery "list_all" "")

/-- Modelled from the spec: `get_workflow_storage(workflow_id)` followed by
`wf_storage.delete_workflow()` — spec §4.2: removes all records for the id.
The deletion log records that the storage deletion was invoked. -/
def storageDeleteWorkflow (s : Sys) (workflow_id : String) : Sys :=
  { s with records := s.records.filter (fun p => p.1 ≠ workflow_id)
           deletionLog := s.deletionLog ++ [workflow_id] }

/-- An element of a `status_filter` set: a string, a `WorkflowStatus`, or
any other object. -/
inductive SetElem where
  | strElem (s : String)
  | statusElem (w : WorkflowStatus)
  | otherElem

/-- The possible shapes of the `status_filter` argument of `list_all`: the
Python `None`, a single string, a single `WorkflowStatus`, a set (embedded
as a list of elements), or any other object. -/
inductive StatusFilterArg where
  | noneArg
  | strArg (s : String)
  | statusArg (w : WorkflowStatus)
  | setArg (elems : List SetElem)
  | otherArg

/-- Whether a set element is a string. -/
def SetElem.isStr : SetElem → Bool
  | SetElem.strElem _ => true
  | _ => false

/-- Whether a set element is a `WorkflowStatus`. -/
def SetElem.isStatus : SetElem → Bool
  | SetElem.statusElem _ => true
  | _ => false

/-- The status of a set element, when it is one. -/
def SetElem.getStatus : SetElem → Option WorkflowStatus
  | SetElem.statusElem w => some w
  | _ => Option.none

/-- The set comprehension over an all-string filter set:
`{WorkflowStatus(s) for s in status_filter}`, failing with `ValueError` at
the first string that is not a status name. Only reached when every element
is a string. -/
def parseStringElems : List SetElem → Except Err (List WorkflowStatus)
  | [] => Except.ok []
  | SetElem.strElem s :: rest =>
      match WorkflowStatus.ofString s with
      | some w => (parseStringElems rest).map (fun ws => w :: ws)
      | Option.none =>
          Except.error (Err.valueError (s ++ " is not a valid WorkflowStatus"))
  | _ :: _ =>
      Except.error (Err.typeError "non-string element in all-string branch")

/-- The argument-normalization block of `list_all` (api.py lines 147-166):
a string becomes a one-element set through the enum call; a status becomes
a one-element set; a set of all-strings is converted elementwise; a set
that is not all-strings and not all-statuses raises `TypeError`; `None`
becomes the set of every status with `NONE` discarded; anything else
raises `TypeError`. -/
def normalizeStatusFilter : StatusFilterArg → Except Err (List WorkflowStatus)
  | StatusFilterArg.strArg s =>
      match WorkflowStatus.ofString s with
      | some w => Except.ok [w]
      | Option.none =>
          Except.error (Err.valueError (s ++ " is not a valid WorkflowStatus"))
  | StatusFilterArg.statusArg w => Except.ok [w]
  | StatusFilterArg.setArg elems =>
      if elems.all SetElem.isStr then
        parseStringElems elems
      else if elems.all SetElem.isStatus then
        Except.ok (elems.filterMap SetElem.getStatus)
      else
        Except.error (Err.typeError
          ("status_filter contains element which is not a type of" ++
            " WorkflowStatus or str."))
  | StatusFilterArg.noneArg =>
      Except.ok [WorkflowStatus.RUNNING, WorkflowStatus.CANCELED,
        WorkflowStatus.SUCCESSFUL, WorkflowStatus.FAILED,
        WorkflowStatus.RESUMABLE]
  | StatusFilterArg.otherArg =>
      Except.error (Err.typeError
        "status_filter must be WorkflowStatus or a set of WorkflowStatus.")

/-- The embedding of `list_all`: ensures initialization, normalizes the
status filter, and only on success invokes the engine with the normalized
set of statuses. -/
def list_all (s : Sys) (status_filter : StatusFilterArg) :
    Except Err (List (String × WorkflowStatus)) × Sys :=
  let s1 := ensureWorkflowInitialized s
  match normalizeStatusFilter status_filter with
  | Except.error e => (Except.error e, s1)
  | Except.ok f => executionListAll s1 f

/-- The embedding of `get_status`: ensures initialization, raises
`TypeError` when the argument is not a string, and otherwise queries the
engine. -/
def get_status (s : Sys) (workflow_id : PyVal) :
    Except Err WorkflowStatus × Sys :=
  let s1 := ensureWorkflowInitialized s
  match workflow_id with
  | PyVal.pstr id => executionGetStatus s1 id
  | _ => (Except.error (Err.typeError "workflow_id has to be a string type."), s1)

/-- The embedding of `cancel`: ensures initialization, raises `TypeError`
when the argument is not a string, and otherwise cancels through the
engine. -/
def cancel (s : Sys) (workflow_id : PyVal) : Except Err Unit × Sys :=
  let s1 := ensureWorkflowInitialized s
  match workflow_id with
  | PyVal.pstr id => executionCancel s1 id
  | _ => (Except.error (Err.typeError "workflow_id has to be a string type."), s1)

/-- The embedding of `resume`: ensures initialization then delegates to the
engine. -/
def resume (s : Sys) (workflow_id : String) : Except Err Unit × Sys :=
  let s1 := ensureWorkflowInitialized s
  executionResume s1 workflow_id

/-- The embedding of `get_output`: ensures initialization then delegates to
the engine. -/
def get_output (s : Sys) (workflow_id : String) : Except Err Unit × Sys :=
  let s1 := ensureWorkflowInitialized s
  executionGetOutput s1 workflow_id

/-- The embedding of `resume_all`: ensures initialization then delegates to
the engine. -/
def resume_all (s : Sys) (include_failed : Bool) :
    Except Err (List String) × Sys :=
  let s1 := ensureWorkflowInitialized s
  executionResumeAll s1 include_failed

/-- The embedding of `get_metadata`: ensures initialization then delegates
to the engine. -/
def get_metadata (s : Sys) (workflow_id : String) : Except Err Unit × Sys :=
  let s1 := ensureWorkflowInitialized s
  executionGetMetadata s1 workflow_id

/-- The embedding of `delete` (api.py lines 345-378): ensures
initialization; inside a try block fetches the status via `get_status` and
raises `WorkflowRunningError` when it is `RUNNING`; an `except ValueError`
clause converts `ValueError`-class escapes of the try block into
`WorkflowNotFoundError`; only when the try block succeeds is the storage
deletion invoked. -/
def delete (s : Sys) (workflow_id : String) : Except Err Unit × Sys :=
  let s1 := ensureWorkflowInitialized s
  let tryBlock : Except Err Unit × Sys :=
    match get_status s1 (PyVal.pstr workflow_id) with
    | (Except.error e, s2) => (Except.error e, s2)
    | (Except.ok st, s2) =>
        if st = WorkflowStatus.RUNNING then
          (Except.error (Err.workflowRunningError "DELETE" workflow_id), s2)
        else
          (Except.ok (), s2)
  match tryBlock with
  | (Except.error e, s2) =>
      if e.isValueError then
        (Except.error (Err.workflowNotFoundError workflow_id), s2)
      else
        (Except.error e, s2)
  | (Except.ok _, s2) => (Except.ok (), storageDeleteWorkflow s2 workflow_id)

/-- A listener type passed to `wait_for_event`: its class name and whether
it is a subclass of `workflow.EventListener` (what `issubclass` checks). -/
structure ListenerType where
  name : String
  subclassOfEventListener : Bool
deriving DecidableEq, Repr

/-- The `TimerListener` class from `ray.workflow.event_listener`, an
`EventListener` subclass used by `sleep`. -/
def TimerListener : ListenerType :=
  { name := "TimerListener", subclassOfEventListener := true }

/-- An event value produced by an external source. -/
abbrev Event : Type := Nat

/-- The DAG nodes `wait_for_event` builds: the `get_message` task, which
instantiates the listener and polls it for the next event, and the
`message_committed` task, which depends on another node for its event
argument, instantiates the listener, calls `event_checkpointed` on the
event and returns the event. -/
inductive WfDAGNode where
  | getMessage (listener : String)
  | messageCommitted (listener : String) (dep : WfDAGNode)
deriving DecidableEq, Repr

/-- The external event world: the events the source will yield to polls, in
order, and the log of events for which `event_checkpointed` acknowledgment
was delivered back to the source. -/
structure EventWorld where
  pending : List Event
  acked : List Event
deriving DecidableEq, Repr

/-- Executing a `wait_for_event` DAG node against the event world:
`get_message` takes the next pending event (suspending, `Option.none`, when
the source has none); `message_committed` first fully resolves its
dependency, then delivers the `event_checkpointed` acknowledgment for the
resolved event and returns that same event. -/
def evalNode : WfDAGNode → EventWorld → Option (Event × EventWorld)
  | WfDAGNode.getMessage _, w =>
      match w.pending with
      | e :: rest => some (e, { w with pending := rest })
      | [] => Option.none
  | WfDAGNode.messageCommitted _ dep, w =>
      match evalNode dep w with
      | some (e, w1) => some (e, { w1 with acked := w1.acked ++ [e] })
      | Option.none => Option.none

/-- The embedding of `wait_for_event` (api.py lines 224-248): raises
`TypeError` when the listener type is not an `EventListener` subclass;
otherwise returns `message_committed.bind(t, get_message.bind(t, ...))` —
the two-node chained DAG. The function performs no initialization check
and does not touch the system state. -/
def wait_for_event (s : Sys) (event_listener_type : ListenerType) :
    Except Err WfDAGNode × Sys :=
  if event_listener_type.subclassOfEventListener then
    (Except.ok (WfDAGNode.messageCommitted event_listener_type.name
        (WfDAGNode.getMessage event_listener_type.name)), s)
  else
    (Except.error (Err.typeError
        ("Event listener type is " ++ event_listener_type.name ++
          ", which is not a subclass of workflow.EventListener")), s)

/-- The embedding of `sleep` (api.py lines 252-261): builds an `end_time`
argument node and delegates to `wait_for_event` with `TimerListener`. Like
`wait_for_event` it performs no initialization check. -/
def sleep (s : Sys) (duration : Nat) : Except Err WfDAGNode × Sys :=
  wait_for_event s TimerListener

/-- The `WORKFLOW_OPTIONS` metadata key from `ray.workflow.common`. -/
def WORKFLOW_OPTIONS : String := "workflow.io/options"

/-- Modelled from the spec: `validate_user_metadata` from
`ray.workflow.common` (not among the analysed sources). Spec §3 requires
run and task metadata to be a JSON-serializable mapping: a non-dict raises
`ValueError`, as does a dict whose values are not JSON serializable
(function objects are not; the model checks one level deep, matching
the one-level `PyVal` dictionaries). -/
def validate_user_metadata : Option PyVal → Except Err Unit
  | Option.none => Except.ok ()
  | some (PyVal.pdict entries) =>
      if entries.all (fun p => !p.2.isFunc) then Except.ok ()
      else Except.error (Err.valueError "metadata is not JSON serializable")
  | some _ => Except.error (Err.valueError "metadata must be a dict.")

/-- A constructed `workflow.options(...)` object: it stores the raw keyword
options it was constructed with (exposed to consumers under
`\x7b"_metadata": \x7bWORKFLOW_OPTIONS: workflow_options\x7d\x7d`). -/
structure OptionsObj where
  workflow_options : List (String × PyVal)

/-- The valid option keywords of `options.__init__` (api.py lines 504-511). -/
def valid_options : List String :=
  ["name", "metadata", "catch_exceptions", "max_retries", "allow_inplace",
    "checkpoint"]

/-- First value bound to a key in a keyword list (Python `dict.get`). -/
def kwGet (kwargs : List (String × PyVal)) (key : String) : Option PyVal :=
  (kwargs.find? (fun p => p.1 = key)).map Prod.snd

/-- The embedding of `options.__init__` (api.py lines 501-522): any keyword
outside `valid_options` raises `ValueError` listing the invalid keywords;
then the `metadata` keyword, when present, is validated; on success the
options object stores the keyword options. -/
def options_init (workflow_options : List (String × PyVal)) :
    Except Err OptionsObj :=
  let invalid_keywords :=
    (workflow_options.map Prod.fst).filter (fun k => !valid_options.contains k)
  if invalid_keywords ≠ [] then
    Except.error (Err.valueError
      ("Invalid option keywords " ++ toString invalid_keywords ++
        " for workflow steps."))
  else
    match validate_user_metadata (kwGet workflow_options "metadata") with
    | Except.error e => Except.error e
    | Except.ok _ => Except.ok { workflow_options := workflow_options }

/-- The `self.options` dictionary a constructed options object carries:
`\x7b"_metadata": \x7bWORKFLOW_OPTIONS: workflow_options\x7d\x7d`. -/
def OptionsObj.selfOptions (o : OptionsObj) : List (String × PyVal) :=
  [("_metadata", PyVal.pdict [(WORKFLOW_OPTIONS, PyVal.pdict o.workflow_options)])]

/-- A Ray remote function: the name and behavior of the wrapped user
function, and its `_default_options` dictionary consumed when the function
is bound into a DAG. -/
structure RemoteFunction where
  fname : String
  body : Nat → Nat
  default_options : List (String × PyVal)

/-- A callable the options decorator may be applied to: a Ray remote
function or a plain (non-remote) callable. -/
inductive Callable where
  | remote (f : RemoteFunction)
  | plain (name : String)

/-- Whether a callable is a Ray remote function. -/
def Callable.isRemote : Callable → Bool
  | Callable.remote _ => true
  | Callable.plain _ => false

/-- Python `dict.update` with a single key: replaces the binding when the
key is present, appends it otherwise. -/
def dictUpdate (d : List (String × PyVal)) (key : String) (v : PyVal) :
    List (String × PyVal) :=
  if d.any (fun p => p.1 = key) then
    d.map (fun p => if p.1 = key then (key, v) else p)
  else
    d ++ [(key, v)]

/-- The embedding of `options.__call__` (api.py lines 530-534): raises
`ValueError` when the argument is not a Ray remote function; otherwise
merges `self.options` (the single `_metadata` entry) into the function's
`_default_options` dictionary and returns the function — its name and
underlying body are untouched. -/
def options_call (o : OptionsObj) : Callable → Except Err Callable
  | Callable.remote f =>
      let newDefaults :=
        dictUpdate f.default_options "_metadata"
          (PyVal.pdict [(WORKFLOW_OPTIONS, PyVal.pdict o.workflow_options)])
      Except.ok (Callable.remote { f with default_options := newDefaults })
  | Callable.plain _ =>
      Except.error (Err.valueError
        "Only apply workflow.options to Ray remote functions.")

/-- Modelled from the spec: a task node of a workflow DAG (spec §3). The
DAG is presented in a topological order as a list of tasks; a task's
dependencies are indices of earlier tasks and its operation computes the
output from the dependency outputs. All tasks are checkpointed (the spec
default). The walker, executor and checkpoint protocol (spec §4.2-4.4) are
not among the analysed sources and are modelled below from the spec. -/
structure TaskDef where
  deps : List Nat
  fn : List Nat → Nat

instance : Inhabited TaskDef := ⟨⟨[], fun _ => 0⟩⟩

/-- A DAG is acyclic in this presentation when every dependency points to
an earlier task in the list (the list order is a topological order). -/
def Acyclic (dag : List TaskDef) : Prop :=
  ∀ i < dag.length, ∀ d ∈ (dag.getD i default).deps, d < i

/-- The run state of the engine: the checkpoint store (committed output per
task, `Option.none` when nothing is committed) and, for the exactly-once
accounting, how many times each task's operation was actually invoked
across all attempts. -/
structure ExecState where
  store : Nat → Option Nat
  execCount : Nat → Nat

/-- The state before anything ran: empty checkpoint store, zero counts. -/
def initExecState : ExecState :=
  { store := fun _ => Option.none, execCount := fun _ => 0 }

/-- Modelled from the spec: one walker visit of task `i` (spec §4.3-4.4).
The executor first consults the checkpoint store; a committed output is
returned without re-invoking the operation. Otherwise the operation runs on
the dependency outputs fetched from the store and its output is committed
(write-once) before dependents may consume it. -/
def stepNode (dag : List TaskDef) (st : ExecState) (i : Nat) : ExecState :=
  match st.store i with
  | some _ => st
  | Option.none =>
      let t := dag.getD i default
      let v := t.fn (t.deps.map (fun d => (st.store d).getD 0))
      { store := fun j => if j = i then some v else st.store j
        execCount := fun j => if j = i then st.execCount j + 1 else st.execCount j }

/-- Visiting a sequence of tasks in order. -/
def runNodes (dag : List TaskDef) (st : ExecState) (order : List Nat) : ExecState :=
  order.foldl (stepNode dag) st

/-- Modelled from the spec: an uninterrupted walk — every task visited in
topological order (spec §4.4). -/
def runAll (dag : List TaskDef) (st : ExecState) : ExecState :=
  runNodes dag st (List.range dag.length)

/-- Modelled from the spec: an attempt that crashes mid-graph after `k`
walker visits; the checkpoint store keeps exactly what was committed. -/
def runPrefix (dag : List TaskDef) (st : ExecState) (k : Nat) : ExecState :=
  runNodes dag st (List.range (min k dag.length))

/-- A sequence of crashed attempts: each one re-walks the DAG from the
start (skipping committed tasks) and crashes after its prefix of visits. -/
def crashedAttempts (dag : List TaskDef) (st : ExecState) : List Nat → ExecState
  | [] => st
  | k :: ks => crashedAttempts dag (runPrefix dag st k) ks

/-- The fuel-indexed mathematical value of task `i`: its operation applied
to the values of its dependencies. Any fuel above `i` suffices on an
acyclic DAG. -/
def denoteAux (dag : List TaskDef) : Nat → Nat → Nat
  | 0, _ => 0
  | fuel + 1, i =>
      let t := dag.getD i default
      t.fn (t.deps.map (fun d => denoteAux dag fuel d))

/-- The mathematical value of task `i` of the DAG. -/
def denote (dag : List TaskDef) (i : Nat) : Nat :=
  denoteAux dag (i + 1) i

/-- The workflow output: the committed output of the sink (last) task. -/
def finalOutput (dag : List TaskDef) (st : ExecState) : Nat :=
  (st.store (dag.length - 1)).getD 0

/-- The checkpoint store only ever holds the mathematical task values. -/
def StoreOK (dag : List TaskDef) (st : ExecState) : Prop :=
  ∀ j v, st.store j = some v → v = denote dag j

/-- A task has been invoked exactly once when its output is committed and
never otherwise. -/
def CountInv (st : ExecState) : Prop :=
  ∀ j, st.execCount j = if (st.store j).isSome then 1 else 0

theorem denoteAux_congr (dag : List TaskDef) (hA : Acyclic dag) :
    ∀ i, i < dag.length → ∀ f1 f2, i < f1 → i < f2 →
      denoteAux dag f1 i = denoteAux dag f2 i := by
  intro i
  induction i using Nat.strong_induction_on with
  | _ i ih =>
    intro hi f1 f2 h1 h2
    match f1, f2 with
    | g1 + 1, g2 + 1 =>
      simp only [denoteAux]
      congr 1
      apply List.map_congr_left
      intro d hd
      have hdi : d < i := hA i hi d hd
      exact ih d hdi (Nat.lt_trans hdi hi) g1 g2
        (Nat.lt_of_lt_of_le hdi (Nat.lt_succ_iff.mp h1))
        (Nat.lt_of_lt_of_le hdi (Nat.lt_succ_iff.mp h2))

theorem denoteAux_eq_denote (dag : List TaskDef) (hA : Acyclic dag)
    (i : Nat) (hi : i < dag.length) (fuel : Nat) (hf : i < fuel) :
    denoteAux dag fuel i = denote dag i :=
  denoteAux_congr dag hA i hi fuel (i + 1) hf (Nat.lt_succ_self i)

theorem stepNode_store_other (dag : List TaskDef) (st : ExecState) (i j : Nat)
    (h : j ≠ i) : (stepNode dag st i).store j = st.store j := by
  unfold stepNode
  match hsi : st.store i with
  | some _ => rfl
  | Option.none => simp [h]

theorem stepNode_store_some (dag : List TaskDef) (st : ExecState) (i j : Nat)
    (v : Nat) (h : st.store j = some v) : (stepNode dag st i).store j = some v := by
  unfold stepNode
  match hsi : st.store i with
  | some _ => exact h
  | Option.none =>
    by_cases hji : j = i
    · subst hji
      rw [h] at hsi
      exact absurd hsi (by simp)
    · simp [hji, h]

theorem countInv_step (dag : List TaskDef) (st : ExecState) (i : Nat)
    (h : CountInv st) : CountInv (stepNode dag st i) := by
  unfold CountInv at h ⊢
  intro j
  unfold stepNode
  match hsi : st.store i with
  | some v => exact h j
  | Option.none =>
    by_cases hji : j = i
    · subst hji
      simp [h j, hsi]
    · simp [hji, h j]

theorem countInv_runNodes (dag : List TaskDef) (order : List Nat) :
    ∀ st, CountInv st → CountInv (runNodes dag st order) := by
  induction order with
  | nil => intro st h; exact h
  | cons i rest ih =>
    intro st h
    exact ih (stepNode dag st i) (countInv_step dag st i h)

theorem stepNode_store_self (dag : List TaskDef) (st : ExecState) (i : Nat)
    (h : st.store i = Option.none) :
    (stepNode dag st i).store i =
      some ((dag.getD i default).fn
        ((dag.getD i default).deps.map (fun d => (st.store d).getD 0))) := by
  unfold stepNode
  rw [h]
  simp

theorem executed_value_correct (dag : List TaskDef) (hA : Acyclic dag)
    (k : Nat) (hk : k < dag.length) (st : ExecState)
    (hok : StoreOK dag st) (hbelow : ∀ j, j < k → (st.store j).isSome) :
    (dag.getD k default).fn
      ((dag.getD k default).deps.map (fun d => (st.store d).getD 0)) =
      denote dag k := by
  have hmap : (dag.getD k default).deps.map (fun d => (st.store d).getD 0) =
      (dag.getD k default).deps.map (fun d => denoteAux dag k d) := by
    apply List.map_congr_left
    intro d hd
    have hdk : d < k := hA k hk d hd
    obtain ⟨w, hw⟩ := Option.isSome_iff_exists.mp (hbelow d hdk)
    rw [hw]
    have hwv := hok d w hw
    simp only [Option.getD_some]
    rw [hwv, denote]
    exact denoteAux_congr dag hA d (Nat.lt_trans hdk hk) (d + 1) k
      (Nat.lt_succ_self d) hdk
  rw [hmap]
  rfl

theorem run_range_inv (dag : List TaskDef) (hA : Acyclic dag) :
    ∀ k, k ≤ dag.length → ∀ st, StoreOK dag st →
      StoreOK dag (runNodes dag st (List.range k)) ∧
      (∀ j, j < k → ((runNodes dag st (List.range k)).store j).isSome) := by
  intro k
  induction k with
  | zero =>
    intro _ st hok
    exact ⟨hok, fun j hj => absurd hj (Nat.not_lt_zero j)⟩
  | succ k ih =>
    intro hk st hok
    have hk' : k ≤ dag.length := Nat.le_of_succ_le hk
    obtain ⟨ihok, ihsome⟩ := ih hk' st hok
    have hrun : runNodes dag st (List.range (k + 1)) =
        stepNode dag (runNodes dag st (List.range k)) k := by
      unfold runNodes
      rw [List.range_succ, List.foldl_append]
      rfl
    set st' := runNodes dag st (List.range k) with hst'
    rw [hrun]
    have hklen : k < dag.length := hk
    constructor
    · intro j v hj
      match hsk : st'.store k with
      | some w =>
        have : (stepNode dag st' k).store j = st'.store j := by
          unfold stepNode
          rw [hsk]
        rw [this] at hj
        exact ihok j v hj
      | Option.none =>
        by_cases hjk : j = k
        · subst hjk
          rw [stepNode_store_self dag st' j hsk] at hj
          have hv := Option.some.inj hj
          rw [← hv]
          exact executed_value_correct dag hA j hklen st' ihok ihsome
        · rw [stepNode_store_other dag st' k j hjk] at hj
          exact ihok j v hj
    · intro j hj
      by_cases hjk : j = k
      · subst hjk
        match hsk : st'.store j with
        | some w =>
          rw [stepNode_store_some dag st' j j w hsk]
          rfl
        | Option.none =>
          rw [stepNode_store_self dag st' j hsk]
          rfl
      · have hjlt : j < k := Nat.lt_of_le_of_ne (Nat.lt_succ_iff.mp hj) hjk
        obtain ⟨w, hw⟩ := Option.isSome_iff_exists.mp (ihsome j hjlt)
        rw [stepNode_store_some dag st' k j w hw]
        rfl

theorem storeOK_runPrefix (dag : List TaskDef) (hA : Acyclic dag)
    (st : ExecState) (hok : StoreOK dag st) (k : Nat) :
    StoreOK dag (runPrefix dag st k) :=
  (run_range_inv dag hA (min k dag.length) (Nat.min_le_right k dag.length)
    st hok).1

theorem storeOK_crashedAttempts (dag : List TaskDef) (hA : Acyclic dag) :
    ∀ ks st, StoreOK dag st → StoreOK dag (crashedAttempts dag st ks) := by
  intro ks
  induction ks with
  | nil => intro st h; exact h
  | cons k rest ih =>
    intro st h
    exact ih (runPrefix dag st k) (storeOK_runPrefix dag hA st h k)

theorem countInv_crashedAttempts (dag : List TaskDef) :
    ∀ ks st, CountInv st → CountInv (crashedAttempts dag st ks) := by
  intro ks
  induction ks with
  | nil => intro st h; exact h
  | cons k rest ih =>
    intro st h
    exact ih (runPrefix dag st k)
      (countInv_runNodes dag (List.range (min k dag.length)) st h)

theorem runAll_store (dag : List TaskDef) (hA : Acyclic dag)
    (st : ExecState) (hok : StoreOK dag st) :
    ∀ j, j < dag.length → (runAll dag st).store j = some (denote dag j) := by
  intro j hj
  obtain ⟨hok2, hsome⟩ :=
    run_range_inv dag hA dag.length (Nat.le_refl dag.length) st hok
  obtain ⟨v, hv⟩ := Option.isSome_iff_exists.mp (hsome j hj)
  have := hok2 j v hv
  rw [runAll]
  rw [hv, this]

theorem storeOK_init (dag : List TaskDef) : StoreOK dag initExecState := by
  intro j v hj
  exact absurd hj (by simp [initExecState])

theorem countInv_init : CountInv initExecState := by
  intro j
  rfl

theorem crashedAttempts_nil_dag (dag : List TaskDef) (h : dag.length = 0) :
    ∀ ks st, crashedAttempts dag st ks = st := by
  intro ks
  induction ks with
  | nil => intro st; rfl
  | cons k rest ih =>
    intro st
    have hpre : runPrefix dag st k = st := by
      unfold runPrefix
      rw [h]
      simp [runNodes]
    rw [crashedAttempts, hpre]
    exact ih st

/-- C1. For every acyclic DAG: a run that crashes mid-graph any number of
times (each attempt committing a prefix of the walk, per-task outputs
skipped when already committed) followed by a final uninterrupted resume
produces the same final workflow output as a single uninterrupted run; at
the end every task is committed with its mathematical value, and every
task whose output was committed to the checkpoint store had its operation
invoked exactly once across all attempts. -/
theorem run_then_resume_eq_uninterrupted (dag : List TaskDef)
    (hA : Acyclic dag) (ks : List Nat) :
    finalOutput dag (runAll dag (crashedAttempts dag initExecState ks)) =
      finalOutput dag (runAll dag initExecState) ∧
    (∀ j, j < dag.length →
      (runAll dag (crashedAttempts dag initExecState ks)).store j =
        some (denote dag j) ∧
      (runAll dag (crashedAttempts dag initExecState ks)).execCount j = 1) := by
  have hokInit := storeOK_init dag
  have hokCrash := storeOK_crashedAttempts dag hA ks initExecState hokInit
  have hcountCrash := countInv_crashedAttempts dag ks initExecState countInv_init
  have hcountFinal : CountInv (runAll dag (crashedAttempts dag initExecState ks)) :=
    countInv_runNodes dag (List.range dag.length) _ hcountCrash
  have hstoreFinal := runAll_store dag hA _ hokCrash
  have hstoreUninterrupted := runAll_store dag hA initExecState hokInit
  constructor
  · by_cases hn : dag.length = 0
    · rw [crashedAttempts_nil_dag dag hn ks initExecState]
    · have hlt : dag.length - 1 < dag.length :=
        Nat.sub_lt (Nat.pos_of_ne_zero hn) Nat.one_pos
      unfold finalOutput
      rw [hstoreFinal (dag.length - 1) hlt, hstoreUninterrupted (dag.length - 1) hlt]
  · intro j hj
    refine ⟨hstoreFinal j hj, ?_⟩
    have := hcountFinal j
    rw [hstoreFinal j hj] at this
    simpa using this

/-- The three-task example DAG of spec §8: task 0 yields 1, task 1 yields
2, task 2 sums its two dependencies. -/
def exampleDag : List TaskDef :=
  [{ deps := [], fn := fun _ => 1 },
   { deps := [], fn := fun _ => 2 },
   { deps := [0, 1], fn := fun args => args.foldl (fun a b => a + b) 0 }]

instance (dag : List TaskDef) : Decidable (Acyclic dag) := by
  unfold Acyclic
  infer_instance

/-- Witness for C1: the example DAG is acyclic, and the theorem applies to
a run that crashes after the first two tasks committed and is then
resumed. -/
theorem run_then_resume_eq_uninterrupted_witness :
    Acyclic exampleDag ∧
    (finalOutput exampleDag
        (runAll exampleDag (crashedAttempts exampleDag initExecState [2])) =
      finalOutput exampleDag (runAll exampleDag initExecState) ∧
    (∀ j, j < exampleDag.length →
      (runAll exampleDag (crashedAttempts exampleDag initExecState [2])).store j =
        some (denote exampleDag j) ∧
      (runAll exampleDag (crashedAttempts exampleDag initExecState [2])).execCount j = 1)) :=
  ⟨by decide, run_then_resume_eq_uninterrupted exampleDag (by decide) [2]⟩

theorem init_records (s : Sys) : (init s).records = s.records := by
  unfold init
  by_cases h : s.rayInitialized <;> simp [h]

theorem init_queryLog (s : Sys) : (init s).queryLog = s.queryLog := by
  unfold init
  by_cases h : s.rayInitialized <;> simp [h]

theorem init_deletionLog (s : Sys) : (init s).deletionLog = s.deletionLog := by
  unfold init
  by_cases h : s.rayInitialized <;> simp [h]

theorem ensure_records (s : Sys) :
    (ensureWorkflowInitialized s).records = s.records := by
  unfold ensureWorkflowInitialized
  by_cases h : (!s.isWorkflowInitialized || !s.rayInitialized) <;>
    simp [h, init_records]

theorem ensure_queryLog (s : Sys) :
    (ensureWorkflowInitialized s).queryLog = s.queryLog := by
  unfold ensureWorkflowInitialized
  by_cases h : (!s.isWorkflowInitialized || !s.rayInitialized) <;>
    simp [h, init_queryLog]

theorem ensure_deletionLog (s : Sys) :
    (ensureWorkflowInitialized s).deletionLog = s.deletionLog := by
  unfold ensureWorkflowInitialized
  by_cases h : (!s.isWorkflowInitialized || !s.rayInitialized) <;>
    simp [h, init_deletionLog]

theorem lookupStatus_congr (s t : Sys) (h : s.records = t.records)
    (workflow_id : String) :
    s.lookupStatus workflow_id = t.lookupStatus workflow_id := by
  unfold Sys.lookupStatus
  rw [h]

theorem ensure_lookupStatus (s : Sys) (workflow_id : String) :
    (ensureWorkflowInitialized s).lookupStatus workflow_id =
      s.lookupStatus workflow_id :=
  lookupStatus_congr _ _ (ensure_records s) workflow_id

theorem logQuery_lookupStatus (s : Sys) (op id workflow_id : String) :
    (s.logQuery op id).lookupStatus workflow_id = s.lookupStatus workflow_id := rfl

theorem ensure_initialized (s : Sys) :
    (ensureWorkflowInitialized s).initialized = true := by
  unfold ensureWorkflowInitialized Sys.initialized init
  by_cases h1 : s.isWorkflowInitialized <;> by_cases h2 : s.rayInitialized <;>
    simp [h1, h2]

/-- C5. Calling `init` when the system is already initialized is a no-op:
`init` is idempotent on the observable state (it is total, so no error is
raised, and a second call changes nothing). -/
theorem init_idempotent (s : Sys) : init (init s) = init s := by
  unfold init
  by_cases h : s.rayInitialized <;> simp [h]

theorem get_status_state (s : Sys) (workflow_id : String) :
    (get_status s (PyVal.pstr workflow_id)).2 =
      (ensureWorkflowInitialized s).logQuery "get_status" workflow_id := by
  unfold get_status executionGetStatus
  cases hq : ((ensureWorkflowInitialized s).logQuery "get_status"
      workflow_id).lookupStatus workflow_id <;> simp [hq]

theorem get_status_result (s : Sys) (workflow_id : String) :
    (get_status s (PyVal.pstr workflow_id)).1 =
      match s.lookupStatus workflow_id with
      | some st => Except.ok st
      | Option.none =>
          Except.error (Err.valueError ("No such workflow_id " ++ workflow_id)) := by
  simp only [get_status, executionGetStatus, logQuery_lookupStatus,
    ensure_lookupStatus]
  cases hq : s.lookupStatus workflow_id <;> simp [hq]

/-- C10. For every argument that is not a string, `get_status` and `cancel`
raise `TypeError`; the persisted records are untouched and the engine query
log is unchanged, so the engine is never queried with a non-string id. -/
theorem nonstring_id_raises_type_error (s : Sys) (v : PyVal)
    (h : v.isStr = false) :
    (get_status s v).1 =
      Except.error (Err.typeError "workflow_id has to be a string type.") ∧
    (get_status s v).2.records = s.records ∧
    (get_status s v).2.queryLog = s.queryLog ∧
    (cancel s v).1 =
      Except.error (Err.typeError "workflow_id has to be a string type.") ∧
    (cancel s v).2.records = s.records ∧
    (cancel s v).2.queryLog = s.queryLog := by
  cases v
  case pstr s0 => simp [PyVal.isStr] at h
  all_goals
    exact ⟨rfl, ensure_records s, ensure_queryLog s, rfl,
      ensure_records s, ensure_queryLog s⟩

/-- Witness for C10 at the concrete non-string argument `3` and the empty
system. -/
theorem nonstring_id_raises_type_error_witness :
    (PyVal.pint 3).isStr = false ∧
    ((get_status Sys.empty (PyVal.pint 3)).1 =
      Except.error (Err.typeError "workflow_id has to be a string type.") ∧
    (get_status Sys.empty (PyVal.pint 3)).2.records = Sys.empty.records ∧
    (get_status Sys.empty (PyVal.pint 3)).2.queryLog = Sys.empty.queryLog ∧
    (cancel Sys.empty (PyVal.pint 3)).1 =
      Except.error (Err.typeError "workflow_id has to be a string type.") ∧
    (cancel Sys.empty (PyVal.pint 3)).2.records = Sys.empty.records ∧
    (cancel Sys.empty (PyVal.pint 3)).2.queryLog = Sys.empty.queryLog) :=
  ⟨rfl, nonstring_id_raises_type_error Sys.empty (PyVal.pint 3) rfl⟩

/-- C2. Deleting a workflow whose current status is `RUNNING` fails with
`WorkflowRunningError` and leaves the persisted records untouched; the
storage deletion is never invoked (the deletion log is unchanged). -/
theorem delete_running_workflow_fails (s : Sys) (workflow_id : String)
    (h : s.lookupStatus workflow_id = some WorkflowStatus.RUNNING) :
    (delete s workflow_id).1 =
      Except.error (Err.workflowRunningError "DELETE" workflow_id) ∧
    (delete s workflow_id).2.records = s.records ∧
    (delete s workflow_id).2.deletionLog = s.deletionLog := by
  have hres : (get_status (ensureWorkflowInitialized s)
      (PyVal.pstr workflow_id)).1 = Except.ok WorkflowStatus.RUNNING := by
    rw [get_status_result]
    rw [ensure_lookupStatus, h]
  have hst := get_status_state (ensureWorkflowInitialized s) workflow_id
  have hpair : get_status (ensureWorkflowInitialized s) (PyVal.pstr workflow_id) =
      (Except.ok WorkflowStatus.RUNNING,
        (ensureWorkflowInitialized (ensureWorkflowInitialized s)).logQuery
          "get_status" workflow_id) :=
    Prod.ext_iff.mpr ⟨hres, hst⟩
  simp only [delete]
  rw [hpair]
  refine ⟨rfl, ?_, ?_⟩
  · show ((ensureWorkflowInitialized (ensureWorkflowInitialized s)).logQuery
      "get_status" workflow_id).records = s.records
    show (ensureWorkflowInitialized (ensureWorkflowInitialized s)).records = s.records
    rw [ensure_records, ensure_records]
  · show ((ensureWorkflowInitialized (ensureWorkflowInitialized s)).logQuery
      "get_status" workflow_id).deletionLog = s.deletionLog
    show (ensureWorkflowInitialized (ensureWorkflowInitialized s)).deletionLog =
      s.deletionLog
    rw [ensure_deletionLog, ensure_deletionLog]

/-- A system with one running workflow, for the C2 witness. -/
def runningSys : Sys :=
  { Sys.empty with records := [("job", WorkflowStatus.RUNNING)] }

/-- Witness for C2 at a concrete system holding one `RUNNING` workflow. -/
theorem delete_running_workflow_fails_witness :
    runningSys.lookupStatus "job" = some WorkflowStatus.RUNNING ∧
    ((delete runningSys "job").1 =
      Except.error (Err.workflowRunningError "DELETE" "job") ∧
    (delete runningSys "job").2.records = runningSys.records ∧
    (delete runningSys "job").2.deletionLog = runningSys.deletionLog) :=
  ⟨by decide, delete_running_workflow_fails runningSys "job" (by decide)⟩

/-- C9. Deleting a workflow id with no persisted record raises
`WorkflowNotFoundError` (the storage deletion is not invoked), and
`get_status` on such an id fails with a `ValueError`-class error. -/
theorem delete_unknown_id_not_found (s : Sys) (workflow_id : String)
    (h : s.lookupStatus workflow_id = Option.none) :
    (delete s workflow_id).1 =
      Except.error (Err.workflowNotFoundError workflow_id) ∧
    resultIsValueError (get_status s (PyVal.pstr workflow_id)).1 = true ∧
    (delete s workflow_id).2.deletionLog = s.deletionLog := by
  have hres : (get_status (ensureWorkflowInitialized s)
      (PyVal.pstr workflow_id)).1 =
      Except.error (Err.valueError ("No such workflow_id " ++ workflow_id)) := by
    rw [get_status_result]
    rw [ensure_lookupStatus, h]
  have hst := get_status_state (ensureWorkflowInitialized s) workflow_id
  have hpair : get_status (ensureWorkflowInitialized s) (PyVal.pstr workflow_id) =
      (Except.error (Err.valueError ("No such workflow_id " ++ workflow_id)),
        (ensureWorkflowInitialized (ensureWorkflowInitialized s)).logQuery
          "get_status" workflow_id) :=
    Prod.ext_iff.mpr ⟨hres, hst⟩
  refine ⟨?_, ?_, ?_⟩
  · simp only [delete]
    rw [hpair]
    rfl
  · rw [get_status_result]
    rw [h]
    rfl
  · simp only [delete]
    rw [hpair]
    show ((ensureWorkflowInitialized (ensureWorkflowInitialized s)).logQuery
      "get_status" workflow_id).deletionLog = s.deletionLog
    show (ensureWorkflowInitialized (ensureWorkflowInitialized s)).deletionLog =
      s.deletionLog
    rw [ensure_deletionLog, ensure_deletionLog]

/-- Witness for C9 at the empty system and an id with no record. -/
theorem delete_unknown_id_not_found_witness :
    Sys.empty.lookupStatus "ghost" = Option.none ∧
    ((delete Sys.empty "ghost").1 =
      Except.error (Err.workflowNotFoundError "ghost") ∧
    resultIsValueError (get_status Sys.empty (PyVal.pstr "ghost")).1 = true ∧
    (delete Sys.empty "ghost").2.deletionLog = Sys.empty.deletionLog) :=
  ⟨by decide, delete_unknown_id_not_found Sys.empty "ghost" (by decide)⟩

theorem logQuery_initialized (s : Sys) (op id : String) :
    (s.logQuery op id).initialized = s.initialized := rfl

theorem executionResume_initialized (s : Sys) (workflow_id : String) :
    ((executionResume s workflow_id).2).initialized = s.initialized := by
  simp only [executionResume]
  cases hq : (s.logQuery "resume" workflow_id).lookupStatus workflow_id <;>
    simp only [hq] <;> rfl

theorem executionCancel_initialized (s : Sys) (workflow_id : String) :
    ((executionCancel s workflow_id).2).initialized = s.initialized := by
  simp only [executionCancel]
  cases hq : (s.logQuery "cancel" workflow_id).lookupStatus workflow_id <;>
    simp only [hq] <;> rfl

theorem get_status_initialized (s : Sys) (v : PyVal) :
    (get_status s v).2.initialized = true := by
  cases v
  case pstr id =>
    rw [get_status_state, logQuery_initialized]
    exact ensure_initialized s
  all_goals exact ensure_initialized s

theorem storageDelete_initialized (s : Sys) (workflow_id : String) :
    (storageDeleteWorkflow s workflow_id).initialized = s.initialized := rfl

theorem delete_initialized (s : Sys) (workflow_id : String) :
    (delete s workflow_id).2.initialized = true := by
  have hgs := get_status_initialized (ensureWorkflowInitialized s)
    (PyVal.pstr workflow_id)
  simp only [delete]
  cases hpair : get_status (ensureWorkflowInitialized s)
      (PyVal.pstr workflow_id) with
  | mk r s2 =>
    rw [hpair] at hgs
    cases r with
    | error e =>
      by_cases hve : e.isValueError <;> simp [hve, hgs]
    | ok st =>
      by_cases hrun : st = WorkflowStatus.RUNNING <;>
        simp [hrun, hgs, storageDelete_initialized, Err.isValueError]

/-- Counterexample for C6: `wait_for_event` performs no ensure-initialized
check — invoked on the uninitialized empty system it returns with the
system still uninitialized, whereas every entry point that performs the
check leaves the system initialized. -/
theorem wait_for_event_skips_init_check :
    (wait_for_event Sys.empty TimerListener).2.initialized = false ∧
    (sleep Sys.empty 5).2.initialized = false := ⟨rfl, rfl⟩

/-- C6 (amended): `resume`, `get_output`, `list_all`, `resume_all`,
`get_status`, `get_metadata`, `cancel` and `delete` each perform the
ensure-initialized check before their work (so the system is initialized
when they return), but `wait_for_event` and `sleep` perform no
ensure-initialized check at all: they return the system state unchanged. -/
theorem entry_points_ensure_initialized (s : Sys) (workflow_id : String)
    (arg : StatusFilterArg) (v : PyVal) (include_failed : Bool)
    (lt : ListenerType) (duration : Nat) :
    (resume s workflow_id).2.initialized = true ∧
    (get_output s workflow_id).2.initialized = true ∧
    (list_all s arg).2.initialized = true ∧
    (resume_all s include_failed).2.initialized = true ∧
    (get_status s v).2.initialized = true ∧
    (get_metadata s workflow_id).2.initialized = true ∧
    (cancel s v).2.initialized = true ∧
    (delete s workflow_id).2.initialized = true ∧
    (wait_for_event s lt).2 = s ∧
    (sleep s duration).2 = s := by
  refine ⟨?_, ?_, ?_, ?_, ?_, ?_, ?_, delete_initialized s workflow_id, ?_, ?_⟩
  · rw [show (resume s workflow_id).2 =
        (executionResume (ensureWorkflowInitialized s) workflow_id).2 from rfl]
    rw [executionResume_initialized]
    exact ensure_initialized s
  · show ((ensureWorkflowInitialized s).logQuery "get_output"
      workflow_id).initialized = true
    rw [logQuery_initialized]
    exact ensure_initialized s
  · unfold list_all
    cases hn : normalizeStatusFilter arg with
    | error e =>
      simp only [hn]
      exact ensure_initialized s
    | ok f =>
      simp only [hn]
      show ((ensureWorkflowInitialized s).logQuery "list_all" "").initialized = true
      rw [logQuery_initialized]
      exact ensure_initialized s
  · show ((ensureWorkflowInitialized s).logQuery "resume_all" "").initialized = true
    rw [logQuery_initialized]
    exact ensure_initialized s
  · exact get_status_initialized s v
  · show ((ensureWorkflowInitialized s).logQuery "get_metadata"
      workflow_id).initialized = true
    rw [logQuery_initialized]
    exact ensure_initialized s
  · cases v
    case pstr id =>
      rw [show (cancel s (PyVal.pstr id)).2 =
          (executionCancel (ensureWorkflowInitialized s) id).2 from rfl]
      rw [executionCancel_initialized]
      exact ensure_initialized s
    all_goals exact ensure_initialized s
  · cases hsub : lt.subclassOfEventListener <;> simp [wait_for_event, hsub]
  · cases hsub : TimerListener.subclassOfEventListener <;>
      simp [sleep, wait_for_event, hsub]

/-- Parsing a list of status strings, `Option.none` when any of them is not
a status name (the reference meaning of the set comprehension over an
all-string filter set). -/
def parseStatusStrings : List String → Option (List WorkflowStatus)
  | [] => some []
  | s :: rest =>
      match WorkflowStatus.ofString s, parseStatusStrings rest with
      | some w, some ws => some (w :: ws)
      | _, _ => Option.none

theorem parseStringElems_map (strs : List String) (ws : List WorkflowStatus)
    (h : parseStatusStrings strs = some ws) :
    parseStringElems (strs.map SetElem.strElem) = Except.ok ws := by
  induction strs generalizing ws with
  | nil =>
    simp [parseStatusStrings] at h
    subst h
    rfl
  | cons s0 rest ih =>
    cases ho : WorkflowStatus.ofString s0 with
    | none => simp [parseStatusStrings, ho] at h
    | some w =>
      cases hrest : parseStatusStrings rest with
      | none => simp [parseStatusStrings, ho, hrest] at h
      | some ws2 =>
        simp [parseStatusStrings, ho, hrest] at h
        subst h
        simp [parseStringElems, ho, ih ws2 hrest, Except.map]

theorem filterMap_getStatus_statusElem (ws : List WorkflowStatus) :
    List.filterMap (SetElem.getStatus ∘ SetElem.statusElem) ws = ws := by
  induction ws with
  | nil => rfl
  | cons w rest ih =>
    rw [List.filterMap_cons]
    simp only [Function.comp]
    simp [SetElem.getStatus, ih]

/-- C3. The `list_all` status-filter normalization: `None` becomes the set
of all statuses except `NONE`; a single string naming status `w` becomes
the one-element set of `w`; a single status becomes its one-element set; a
set of statuses stays itself; a set of status strings becomes the set of
the statuses they name; a set that is neither all-strings nor all-statuses
(such as one mixing both) raises `TypeError`, as does any other argument
shape; and `list_all` invokes the core only with a successfully normalized
set of `WorkflowStatus` values. -/
theorem list_all_normalizes_status_filter :
    (normalizeStatusFilter StatusFilterArg.noneArg =
      Except.ok [WorkflowStatus.RUNNING, WorkflowStatus.CANCELED,
        WorkflowStatus.SUCCESSFUL, WorkflowStatus.FAILED,
        WorkflowStatus.RESUMABLE]) ∧
    (∀ str w, WorkflowStatus.ofString str = some w →
      normalizeStatusFilter (StatusFilterArg.strArg str) = Except.ok [w]) ∧
    (∀ w, normalizeStatusFilter (StatusFilterArg.statusArg w) =
      Except.ok [w]) ∧
    (∀ ws : List WorkflowStatus,
      normalizeStatusFilter (StatusFilterArg.setArg
        (ws.map SetElem.statusElem)) = Except.ok ws) ∧
    (∀ strs ws, parseStatusStrings strs = some ws →
      normalizeStatusFilter (StatusFilterArg.setArg
        (strs.map SetElem.strElem)) = Except.ok ws) ∧
    (∀ elems, elems.all SetElem.isStr = false →
      elems.all SetElem.isStatus = false →
      ∃ m, normalizeStatusFilter (StatusFilterArg.setArg elems) =
        Except.error (Err.typeError m)) ∧
    (∃ m, normalizeStatusFilter StatusFilterArg.otherArg =
      Except.error (Err.typeError m)) ∧
    (∀ s arg out s2, list_all s arg = (Except.ok out, s2) →
      ∃ f, normalizeStatusFilter arg = Except.ok f) := by
  refine ⟨rfl, ?_, ?_, ?_, ?_, ?_, ⟨_, rfl⟩, ?_⟩
  · intro str w h
    simp [normalizeStatusFilter, h]
  · intro w
    rfl
  · intro ws
    cases ws with
    | nil => rfl
    | cons w rest =>
      have h1 : ((w :: rest).map SetElem.statusElem).all SetElem.isStr = false := by
        simp [SetElem.isStr]
      have h2 : ((w :: rest).map SetElem.statusElem).all SetElem.isStatus = true := by
        simp [List.all_map, SetElem.isStatus, Function.comp]
      simp only [normalizeStatusFilter, h1, h2]
      simp [SetElem.getStatus, filterMap_getStatus_statusElem]
  · intro strs ws h
    cases strs with
    | nil =>
      simp [parseStatusStrings] at h
      subst h
      rfl
    | cons s0 rest =>
      have hall : ((s0 :: rest).map SetElem.strElem).all SetElem.isStr = true := by
        simp [List.all_map, SetElem.isStr, Function.comp]
      simp only [normalizeStatusFilter, hall, if_true]
      exact parseStringElems_map (s0 :: rest) ws h
  · intro elems h1 h2
    refine ⟨"status_filter contains element which is not a type of" ++
      " WorkflowStatus or str.", ?_⟩
    simp [normalizeStatusFilter, h1, h2]
  · intro s arg out s2 h
    cases hn : normalizeStatusFilter arg with
    | error e =>
      simp only [list_all, hn] at h
      simp at h
    | ok f => exact ⟨f, rfl⟩

/-- Witness for C3: the theorem applied at concrete filter arguments — the
string "RUNNING", the string set containing "FAILED", and a set mixing a
string with a status. -/
theorem list_all_normalizes_status_filter_witness :
    normalizeStatusFilter (StatusFilterArg.strArg "RUNNING") =
      Except.ok [WorkflowStatus.RUNNING] ∧
    normalizeStatusFilter (StatusFilterArg.setArg [SetElem.strElem "FAILED"]) =
      Except.ok [WorkflowStatus.FAILED] ∧
    (∃ m, normalizeStatusFilter (StatusFilterArg.setArg
        [SetElem.strElem "FAILED", SetElem.statusElem WorkflowStatus.FAILED]) =
      Except.error (Err.typeError m)) :=
  ⟨list_all_normalizes_status_filter.2.1 "RUNNING" WorkflowStatus.RUNNING
      (by decide),
   list_all_normalizes_status_filter.2.2.2.2.1 ["FAILED"]
      [WorkflowStatus.FAILED] (by decide),
   list_all_normalizes_status_filter.2.2.2.2.2.1
      [SetElem.strElem "FAILED", SetElem.statusElem WorkflowStatus.FAILED]
      (by decide) (by decide)⟩

theorem evalNode_messageCommitted (n : String) (dep : WfDAGNode)
    (w : EventWorld) :
    evalNode (WfDAGNode.messageCommitted n dep) w =
      match evalNode dep w with
      | some (e, w1) => some (e, { w1 with acked := w1.acked ++ [e] })
      | Option.none => Option.none := rfl

/-- C4. For a listener type that is an `EventListener` subclass,
`wait_for_event` returns the DAG of exactly two chained tasks
`message_committed(listener, get_message(listener, ...))`; resolving the
second task first resolves the poll task, then delivers the
`event_checkpointed` acknowledgment for the polled event, and returns that
same event unchanged — and when the poll suspends, no acknowledgment is
ever delivered. For a type that is not an `EventListener` subclass,
`wait_for_event` raises `TypeError`. -/
theorem wait_for_event_two_chained_tasks (s : Sys) (lt : ListenerType) :
    (lt.subclassOfEventListener = true →
      (wait_for_event s lt).1 = Except.ok (WfDAGNode.messageCommitted lt.name
        (WfDAGNode.getMessage lt.name)) ∧
      (∀ w e w1, evalNode (WfDAGNode.getMessage lt.name) w = some (e, w1) →
        evalNode (WfDAGNode.messageCommitted lt.name
          (WfDAGNode.getMessage lt.name)) w =
          some (e, { w1 with acked := w1.acked ++ [e] })) ∧
      (∀ w, evalNode (WfDAGNode.getMessage lt.name) w = Option.none →
        evalNode (WfDAGNode.messageCommitted lt.name
          (WfDAGNode.getMessage lt.name)) w = Option.none)) ∧
    (lt.subclassOfEventListener = false →
      ∃ m, (wait_for_event s lt).1 = Except.error (Err.typeError m)) := by
  constructor
  · intro hsub
    refine ⟨?_, ?_, ?_⟩
    · simp [wait_for_event, hsub]
    · intro w e w1 h
      rw [evalNode_messageCommitted, h]
    · intro w h
      rw [evalNode_messageCommitted, h]
  · intro hsub
    refine ⟨"Event listener type is " ++ lt.name ++
      ", which is not a subclass of workflow.EventListener", ?_⟩
    simp [wait_for_event, hsub]

/-- A type that is not an `EventListener` subclass, for witnesses. -/
def NotAListener : ListenerType :=
  { name := "int", subclassOfEventListener := false }

/-- Witness for C4 at the `TimerListener` subclass and at the non-subclass
type. -/
theorem wait_for_event_two_chained_tasks_witness :
    TimerListener.subclassOfEventListener = true ∧
    ((wait_for_event Sys.empty TimerListener).1 =
      Except.ok (WfDAGNode.messageCommitted TimerListener.name
        (WfDAGNode.getMessage TimerListener.name)) ∧
      (∀ w e w1, evalNode (WfDAGNode.getMessage TimerListener.name) w =
          some (e, w1) →
        evalNode (WfDAGNode.messageCommitted TimerListener.name
          (WfDAGNode.getMessage TimerListener.name)) w =
          some (e, { w1 with acked := w1.acked ++ [e] })) ∧
      (∀ w, evalNode (WfDAGNode.getMessage TimerListener.name) w = Option.none →
        evalNode (WfDAGNode.messageCommitted TimerListener.name
          (WfDAGNode.getMessage TimerListener.name)) w = Option.none)) ∧
    (∃ m, (wait_for_event Sys.empty NotAListener).1 =
      Except.error (Err.typeError m)) :=
  ⟨rfl, (wait_for_event_two_chained_tasks Sys.empty TimerListener).1 rfl,
   (wait_for_event_two_chained_tasks Sys.empty NotAListener).2 rfl⟩

/-- Counterexample for C7: constructing options with the invalid keyword
"bogus" does fail, but with a plain `ValueError`, not with the
`InvalidOptionsError` class the claim names — the code raises
`ValueError(...)` directly and no `InvalidOptionsError` is ever raised by
the module. -/
theorem options_invalid_keyword_error_class :
    resultIsOk (options_init [("bogus", PyVal.pint 1)]) = false ∧
    resultIsInvalidOptions (options_init [("bogus", PyVal.pint 1)]) = false ∧
    options_init [("bogus", PyVal.pint 1)] =
      Except.error (Err.valueError
        ("Invalid option keywords " ++ toString ["bogus"] ++
          " for workflow steps.")) := ⟨rfl, rfl, rfl⟩

/-- C7 (amended): constructing `options(**workflow_options)` with any
keyword outside the valid set raises `ValueError` (not
`InvalidOptionsError`, which the code never raises), and with only valid
keywords — and metadata that validates, when given — it succeeds. -/
theorem options_keyword_validation (workflow_options : List (String × PyVal)) :
    (((workflow_options.map Prod.fst).filter
        (fun k => !valid_options.contains k)) ≠ [] →
      ∃ m, options_init workflow_options = Except.error (Err.valueError m)) ∧
    (((workflow_options.map Prod.fst).filter
        (fun k => !valid_options.contains k)) = [] →
      validate_user_metadata (kwGet workflow_options "metadata") =
        Except.ok () →
      ∃ o, options_init workflow_options = Except.ok o) := by
  constructor
  · intro h
    refine ⟨"Invalid option keywords " ++
      toString ((workflow_options.map Prod.fst).filter
        (fun k => !valid_options.contains k)) ++ " for workflow steps.", ?_⟩
    simp only [options_init]
    rw [if_pos h]
  · intro h hm
    refine ⟨{ workflow_options := workflow_options }, ?_⟩
    simp only [options_init]
    rw [if_neg (not_ne_iff.mpr h), hm]

/-- Witness for C7 at a concrete invalid keyword and a concrete valid one. -/
theorem options_keyword_validation_witness :
    (([("bogus", PyVal.pint 1)].map Prod.fst).filter
        (fun k => !valid_options.contains k) ≠ [] ∧
      (∃ m, options_init [("bogus", PyVal.pint 1)] =
        Except.error (Err.valueError m))) ∧
    (([("name", PyVal.pstr "step1")].map Prod.fst).filter
        (fun k => !valid_options.contains k) = [] ∧
      (∃ o, options_init [("name", PyVal.pstr "step1")] = Except.ok o)) :=
  ⟨⟨by decide,
    (options_keyword_validation [("bogus", PyVal.pint 1)]).1 (by decide)⟩,
   ⟨by decide,
    (options_keyword_validation [("name", PyVal.pstr "step1")]).2
      (by decide) rfl⟩⟩

/-- The default-options dictionary the decorator produces for a remote
function: only the `_metadata` entry is merged in. -/
def decoratedDefaults (o : OptionsObj) (f : RemoteFunction) :
    List (String × PyVal) :=
  dictUpdate f.default_options "_metadata"
    (PyVal.pdict [(WORKFLOW_OPTIONS, PyVal.pdict o.workflow_options)])

/-- The decorated remote function: same name, same body, merged defaults. -/
def decoratedFunction (o : OptionsObj) (f : RemoteFunction) : RemoteFunction :=
  { fname := f.fname, body := f.body, default_options := decoratedDefaults o f }

/-- C8. Applying an options instance as a decorator to a Ray remote
function only merges the options record into the function's default-options
dictionary (under the `_metadata` key, consumed when the function is bound
into a DAG): the decorated function's name and underlying behavior are
unchanged — no runtime monkey-patching of the callable. Applying it to
anything that is not a remote function raises an error. -/
theorem options_decorator_frame (o : OptionsObj) (f : RemoteFunction)
    (c : Callable) :
    (options_call o (Callable.remote f) =
      Except.ok (Callable.remote (decoratedFunction o f)) ∧
     (∀ f2, options_call o (Callable.remote f) =
        Except.ok (Callable.remote f2) →
       f2.fname = f.fname ∧ f2.body = f.body)) ∧
    (c.isRemote = false →
      ∃ m, options_call o c = Except.error (Err.valueError m)) := by
  refine ⟨⟨rfl, ?_⟩, ?_⟩
  · intro f2 h
    simp only [options_call, Except.ok.injEq, Callable.remote.injEq] at h
    subst h
    exact ⟨rfl, rfl⟩
  · intro hc
    cases c with
    | remote f3 => simp [Callable.isRemote] at hc
    | plain n =>
      exact ⟨"Only apply workflow.options to Ray remote functions.", rfl⟩

/-- A concrete remote function for the C8 witness. -/
def exampleRemote : RemoteFunction :=
  { fname := "foo", body := fun n => n + 1, default_options := [] }

/-- A concrete empty options object for the C8 witness. -/
def emptyOptions : OptionsObj := { workflow_options := [] }

/-- Witness for C8 at a concrete options object, remote function and plain
callable. -/
theorem options_decorator_frame_witness :
    (options_call emptyOptions (Callable.remote exampleRemote) =
      Except.ok (Callable.remote (decoratedFunction emptyOptions exampleRemote)) ∧
     (∀ f2, options_call emptyOptions (Callable.remote exampleRemote) =
        Except.ok (Callable.remote f2) →
       f2.fname = exampleRemote.fname ∧ f2.body = exampleRemote.body)) ∧
    ((Callable.plain "bar").isRemote = false ∧
     (∃ m, options_call emptyOptions (Callable.plain "bar") =
       Except.error (Err.valueError m))) :=
  ⟨(options_decorator_frame emptyOptions exampleRemote
      (Callable.plain "bar")).1,
   rfl,
   (options_decorator_frame emptyOptions exampleRemote
      (Callable.plain "bar")).2 rfl⟩
